import Mathlib

/-!
Shallow embedding of the WeatherViz dashboard (`src/script.js`) and proofs
of its specified properties.

The JavaScript program is single-threaded UI orchestration: global state
(`unit`, `currentPlace`, chart handles, DOM text nodes) mutated by event
handlers that call two HTTP clients (geocoding, forecast) and a charting
library.  We embed it as pure functions over an explicit `AppState`,
with the network and platform effects supplied through an `Env` record
(the outcome each fetch would produce, the availability of the charting
library, and the locale time formatters) and the list of issued HTTP
requests returned alongside the new state.
-/

namespace WeatherViz

/-- `{t, i}` pair returned by `decodeWeatherCode`: display label and icon glyph. -/
structure WeatherInfo where
  t : String
  i : String
deriving DecidableEq, Repr

/-- The literal object `map` inside `decodeWeatherCode` (script.js lines 88-117),
as an association list from WMO code to `{t, i}`. -/
def weatherCodeMap : List (Int × WeatherInfo) :=
  [ (0,  ⟨"Clear sky", "☀️"⟩)
  , (1,  ⟨"Mainly clear", "🌤️"⟩)
  , (2,  ⟨"Partly cloudy", "⛅"⟩)
  , (3,  ⟨"Overcast", "☁️"⟩)
  , (45, ⟨"Fog", "🌫️"⟩)
  , (48, ⟨"Depositing rime fog", "🌫️"⟩)
  , (51, ⟨"Light drizzle", "🌦️"⟩)
  , (53, ⟨"Drizzle", "🌦️"⟩)
  , (55, ⟨"Dense drizzle", "🌧️"⟩)
  , (56, ⟨"Freezing drizzle", "🌧️"⟩)
  , (57, ⟨"Freezing drizzle", "🌧️"⟩)
  , (61, ⟨"Slight rain", "🌧️"⟩)
  , (63, ⟨"Rain", "🌧️"⟩)
  , (65, ⟨"Heavy rain", "⛈️"⟩)
  , (66, ⟨"Freezing rain", "🌧️"⟩)
  , (67, ⟨"Freezing rain", "🌧️"⟩)
  , (71, ⟨"Slight snow", "🌨️"⟩)
  , (73, ⟨"Snow", "🌨️"⟩)
  , (75, ⟨"Heavy snow", "❄️"⟩)
  , (77, ⟨"Snow grains", "🌨️"⟩)
  , (80, ⟨"Rain showers", "🌦️"⟩)
  , (81, ⟨"Rain showers", "🌦️"⟩)
  , (82, ⟨"Violent showers", "⛈️"⟩)
  , (85, ⟨"Snow showers", "🌨️"⟩)
  , (86, ⟨"Heavy snow showers", "❄️"⟩)
  , (95, ⟨"Thunderstorm", "⛈️"⟩)
  , (96, ⟨"Thunderstorm w/ hail", "⛈️"⟩)
  , (99, ⟨"Thunderstorm w/ hail", "⛈️"⟩) ]

/-- The fallback value `{t:"Unknown", i:"🌡️"}` of `decodeWeatherCode`. -/
def unknownWeather : WeatherInfo := ⟨"Unknown", "🌡️"⟩

/-- `decodeWeatherCode(code)` (script.js lines 87-119):
`return map[code] || {t:"Unknown", i:"🌡️"};`.
Every entry of the object is a (truthy) object, so the `||` fallback is taken
exactly when `code` is not a key of the table. -/
def decodeWeatherCode (code : Int) : WeatherInfo :=
  match weatherCodeMap.lookup code with
  | some w => w
  | none => unknownWeather

/-- If every value of an association list satisfies `P`, so does any
successful lookup result. -/
theorem lookup_prop {α β : Type} [BEq α] (P : β → Prop) :
    ∀ (l : List (α × β)), (∀ p ∈ l, P p.2) →
    ∀ (a : α) (b : β), l.lookup a = some b → P b := by
  intro l
  induction l with
  | nil => intro _ a b h; simp [List.lookup] at h
  | cons hd tl ih =>
    intro hall a b h
    rw [List.lookup] at h
    by_cases hcmp : (a == hd.1) = true
    · simp [hcmp] at h
      exact h ▸ hall hd (List.mem_cons_self _ _)
    · simp [hcmp] at h
      exact ih (fun p hp => hall p (List.mem_cons_of_mem _ hp)) a b h

/-- C1: `decodeWeatherCode` is total — for every integer code it returns a
pair with non-empty label and icon; any code absent from the lookup table is
mapped to the fixed fallback `{t:"Unknown", i:"🌡️"}`; and code 0 maps to
label `"Clear sky"`. -/
theorem decodeWeatherCode_total_fallback_clearSky :
    (∀ code : Int, (decodeWeatherCode code).t ≠ "" ∧ (decodeWeatherCode code).i ≠ "")
    ∧ (∀ code : Int, weatherCodeMap.lookup code = none →
        decodeWeatherCode code = unknownWeather)
    ∧ (decodeWeatherCode 0).t = "Clear sky" := by
  refine ⟨?_, ?_, ?_⟩
  · intro code
    unfold decodeWeatherCode
    cases hl : weatherCodeMap.lookup code with
    | none => simp [unknownWeather]
    | some w =>
      have hval : ∀ p ∈ weatherCodeMap, p.2.t ≠ "" ∧ p.2.i ≠ "" := by decide
      exact lookup_prop (fun b => b.t ≠ "" ∧ b.i ≠ "") weatherCodeMap hval code w hl
  · intro code h
    unfold decodeWeatherCode
    rw [h]
  · decide

/-- Witness for `decodeWeatherCode_total_fallback_clearSky`: code `42` is not
in the table and decodes to the fallback. -/
theorem decodeWeatherCode_total_fallback_clearSky_witness :
    decodeWeatherCode 42 = unknownWeather :=
  decodeWeatherCode_total_fallback_clearSky.2.1 42 (by decide)

/-! ## Forecast data model

The Open-Meteo response consumed by the script (`current`, `hourly`, `daily`
blocks, field names as requested in the `forecast` URL).  JS numbers are
embedded as `ℚ`; fields the script guards with `??` / `!= null` are
`Option`-valued (JS `undefined`/`null` ↦ `none`). -/

/-- `data.current` block. -/
structure Current where
  time : String
  temperature_2m : ℚ
  apparent_temperature : ℚ
  relative_humidity_2m : Option ℚ
  precipitation : Option ℚ
  weather_code : Int
  wind_speed_10m : ℚ

/-- `data.hourly` block: parallel arrays indexed by `time`. -/
structure Hourly where
  time : List String
  temperature_2m : List ℚ
  precipitation_probability : List (Option ℚ)
  precipitation : List ℚ
  wind_speed_10m : List ℚ

/-- `data.daily` block: parallel arrays indexed by `time`. -/
structure Daily where
  time : List String
  temperature_2m_min : List ℚ
  temperature_2m_max : List ℚ
  precipitation_sum : List (Option ℚ)
  precipitation_probability_max : List (Option ℚ)
  weather_code : List Int

/-- A well-formed forecast response body. -/
structure Snapshot where
  current : Current
  hourly : Hourly
  daily : Daily

/-- JavaScript `Math.round`: round half toward positive infinity,
`⌊x + 1/2⌋`. -/
def jsRound (q : ℚ) : ℤ := ⌊q + 1 / 2⌋

/-- JavaScript `(x).toFixed(1)` modelled as the rounded numeric value
(one decimal place). -/
def toFixed1 (q : ℚ) : ℚ := (jsRound (q * 10) : ℚ) / 10

/-- The `{labels, temps, rainP, wind}` object built by `next24HoursSeries`. -/
structure ChartSeries where
  labels : List String
  temps : List ℚ
  rainP : List (Option ℚ)
  wind : List ℚ
deriving DecidableEq

/-- `next24HoursSeries(data)` (script.js lines 265-277): `slice(0, 24)` of
each hourly array, with the sliced timestamps mapped through the locale
`hour:minute` formatter (`toLocaleTimeString`, supplied here as `fmt`). -/
def next24HoursSeries (fmt : String → String) (data : Snapshot) : ChartSeries :=
  { labels := (data.hourly.time.take 24).map fmt
  , temps := data.hourly.temperature_2m.take 24
  , rainP := data.hourly.precipitation_probability.take 24
  , wind := data.hourly.wind_speed_10m.take 24 }

/-- C2: `next24HoursSeries` takes exactly the first 24 entries of each hourly
array — 24 entries in give 24 out, 10 give 10 (no padding), 30 give the
first 24 — and the label at each index is the locale-formatted rendering of
the hourly timestamp at the same index. -/
theorem next24HoursSeries_first24_and_labels (fmt : String → String) (data : Snapshot) :
    ((next24HoursSeries fmt data).labels.length = min 24 data.hourly.time.length
      ∧ (next24HoursSeries fmt data).temps.length = min 24 data.hourly.temperature_2m.length
      ∧ (next24HoursSeries fmt data).rainP.length = min 24 data.hourly.precipitation_probability.length
      ∧ (next24HoursSeries fmt data).wind.length = min 24 data.hourly.wind_speed_10m.length)
    ∧ (data.hourly.time.length = 24 → (next24HoursSeries fmt data).labels.length = 24)
    ∧ (data.hourly.time.length = 10 → (next24HoursSeries fmt data).labels.length = 10)
    ∧ (data.hourly.time.length = 30 → (next24HoursSeries fmt data).labels.length = 24)
    ∧ (∀ i : ℕ, i < 24 →
        (next24HoursSeries fmt data).labels.get? i = (data.hourly.time.get? i).map fmt) := by
  refine ⟨⟨?_, ?_, ?_, ?_⟩, ?_, ?_, ?_, ?_⟩ <;>
    simp [next24HoursSeries]
  · intro h; omega
  · intro h; omega
  · intro h; omega
  · intro i hi
    simp [List.getElem?_take, hi, List.getElem?_map]

/-- Witness for `next24HoursSeries_first24_and_labels`: a 30-entry hourly
payload yields 24 labels, and label 2 is the formatted third timestamp. -/
theorem next24HoursSeries_first24_and_labels_witness :
    ((next24HoursSeries (fun s => String.append s "!")
        { current := { time := "t0", temperature_2m := 0, apparent_temperature := 0,
                       relative_humidity_2m := none, precipitation := none,
                       weather_code := 0, wind_speed_10m := 0 }
        , hourly := { time := (List.range 30).map toString
                    , temperature_2m := [], precipitation_probability := []
                    , precipitation := [], wind_speed_10m := [] }
        , daily := { time := [], temperature_2m_min := [], temperature_2m_max := []
                   , precipitation_sum := [], precipitation_probability_max := []
                   , weather_code := [] } }).labels.length = 24)
    ∧ ((next24HoursSeries (fun s => String.append s "!")
        { current := { time := "t0", temperature_2m := 0, apparent_temperature := 0,
                       relative_humidity_2m := none, precipitation := none,
                       weather_code := 0, wind_speed_10m := 0 }
        , hourly := { time := (List.range 30).map toString
                    , temperature_2m := [], precipitation_probability := []
                    , precipitation := [], wind_speed_10m := [] }
        , daily := { time := [], temperature_2m_min := [], temperature_2m_max := []
                   , precipitation_sum := [], precipitation_probability_max := []
                   , weather_code := [] } }).labels.get? 2 = some "2!") := by
  constructor
  · exact (next24HoursSeries_first24_and_labels _ _).2.2.2.1 (by decide)
  · have h := (next24HoursSeries_first24_and_labels (fun s => String.append s "!")
      { current := { time := "t0", temperature_2m := 0, apparent_temperature := 0,
                     relative_humidity_2m := none, precipitation := none,
                     weather_code := 0, wind_speed_10m := 0 }
      , hourly := { time := (List.range 30).map toString
                  , temperature_2m := [], precipitation_probability := []
                  , precipitation := [], wind_speed_10m := [] }
      , daily := { time := [], temperature_2m_min := [], temperature_2m_max := []
                 , precipitation_sum := [], precipitation_probability_max := []
                 , weather_code := [] } }).2.2.2.2 2 (by decide)
    rw [h]
    decide

/-! ## Today card (`setTodayCard`, `getClosestHourly`) -/

/-- Text content of a numeric display cell: `Math.round` output, a raw value
echoed as-is, or the placeholder glyph `"—"`. -/
inductive CellText where
  | num (n : ℤ)
  | rat (q : ℚ)
  | dash
deriving DecidableEq

/-- JavaScript `Array.prototype.indexOf`: index of the first exact match,
`-1` when absent. -/
def jsIndexOf (l : List String) (x : String) : Int :=
  match l with
  | [] => -1
  | a :: rest =>
      if a = x then 0
      else
        let r := jsIndexOf rest x
        if r < 0 then -1 else r + 1

/-- `getClosestHourly(data, key)` (script.js lines 191-200): look up the
hourly entry at the index where `hourly.time` equals `current.time` exactly
(`indexOf`), fall back to index 0 when there is no match, and return `null`
(the `catch` branch) when the hourly block cannot be read at all —
modelled by `hourly? = none`.  An out-of-range access yields `undefined`
(`none`), as in JS. -/
def getClosestHourly {α : Type} (hourly? : Option Hourly) (curTime : String)
    (key : Hourly → List α) : Option α :=
  match hourly? with
  | none => none
  | some h =>
      let idx : Int := jsIndexOf h.time curTime
      if 0 ≤ idx then (key h).get? idx.toNat else (key h).get? 0

/-- Rendering of the rain-probability figure:
`rainProb != null ? Math.round(rainProb) : "—"` (script.js line 218). -/
def rainNowCell (p : Option ℚ) : CellText :=
  match p with
  | some v => CellText.num (jsRound v)
  | none => CellText.dash

/-- Temperature unit preference, the global `unit` variable (`"C"` / `"F"`). -/
inductive UnitPref where
  | C
  | F
deriving DecidableEq

/-- The display fields written by `setTodayCard(data)` (script.js lines
202-226). -/
structure TodayCard where
  wxIcon : String
  wxMain : String
  conditionBadge : String
  tempNow : ℤ
  tempFeel : ℤ
  windNow : ℤ
  humNow : CellText
  precipNow : ℚ
  rainNow : CellText
  tempUnit : String
  feelUnit : String
  windUnit : String
  rainUnit : String
  wxSubLat : ℚ
  wxSubLon : ℚ
deriving DecidableEq

/-- JavaScript `(x).toFixed(2)` modelled as the rounded numeric value. -/
def toFixed2 (q : ℚ) : ℚ := (jsRound (q * 100) : ℚ) / 100

/-- `setTodayCard(data)` (script.js lines 202-226).  `lat`/`lon` are the
coordinates of `currentPlace`, which `loadWeatherByCoords` sets just before
calling this.  `humNow` is `c.relative_humidity_2m ?? "—"`; `precipNow` is
`(c.precipitation ?? 0).toFixed(1)`; `rainNow` comes from
`getClosestHourly(data, "precipitation_probability")`. -/
def setTodayCard (u : UnitPref) (lat lon : ℚ) (data : Snapshot) : TodayCard :=
  let c := data.current
  let w := decodeWeatherCode c.weather_code
  let rainProb : Option ℚ :=
    (getClosestHourly (some data.hourly) c.time (fun h => h.precipitation_probability)).join
  { wxIcon := w.i
  , wxMain := w.t
  , conditionBadge := w.t
  , tempNow := jsRound c.temperature_2m
  , tempFeel := jsRound c.apparent_temperature
  , windNow := jsRound c.wind_speed_10m
  , humNow := match c.relative_humidity_2m with
      | some v => CellText.rat v
      | none => CellText.dash
  , precipNow := toFixed1 (c.precipitation.getD 0)
  , rainNow := rainNowCell rainProb
  , tempUnit := if u = UnitPref.F then "°F" else "°C"
  , feelUnit := if u = UnitPref.F then "°F" else "°C"
  , windUnit := "km/h"
  , rainUnit := "%"
  , wxSubLat := toFixed2 lat
  , wxSubLon := toFixed2 lon }

/-- C7: the today card rounds the current temperature to the nearest whole
unit (21.6 displays as 22), and a missing relative-humidity field displays
the placeholder glyph — not 0, and without any failure (`setTodayCard` is a
total function). -/
theorem setTodayCard_round_and_humidity_placeholder :
    (∀ (u : UnitPref) (lat lon : ℚ) (data : Snapshot),
        data.current.temperature_2m = 216 / 10 →
        (setTodayCard u lat lon data).tempNow = 22)
    ∧ (∀ (u : UnitPref) (lat lon : ℚ) (data : Snapshot),
        data.current.relative_humidity_2m = none →
        (setTodayCard u lat lon data).humNow = CellText.dash
          ∧ (setTodayCard u lat lon data).humNow ≠ CellText.rat 0) := by
  constructor
  · intro u lat lon data h
    simp [setTodayCard, jsRound, h]
    norm_num
  · intro u lat lon data h
    simp [setTodayCard, h]

/-- Witness for `setTodayCard_round_and_humidity_placeholder` at a concrete
snapshot with temperature 21.6 and no humidity field. -/
theorem setTodayCard_round_and_humidity_placeholder_witness :
    (setTodayCard UnitPref.C 0 0
      { current := { time := "t0", temperature_2m := 216 / 10,
                     apparent_temperature := 20, relative_humidity_2m := none,
                     precipitation := none, weather_code := 0, wind_speed_10m := 5 }
      , hourly := { time := ["t0"], temperature_2m := [216 / 10]
                  , precipitation_probability := [some 40], precipitation := [0]
                  , wind_speed_10m := [5] }
      , daily := { time := [], temperature_2m_min := [], temperature_2m_max := []
                 , precipitation_sum := [], precipitation_probability_max := []
                 , weather_code := [] } }).tempNow = 22
    ∧ (setTodayCard UnitPref.C 0 0
      { current := { time := "t0", temperature_2m := 216 / 10,
                     apparent_temperature := 20, relative_humidity_2m := none,
                     precipitation := none, weather_code := 0, wind_speed_10m := 5 }
      , hourly := { time := ["t0"], temperature_2m := [216 / 10]
                  , precipitation_probability := [some 40], precipitation := [0]
                  , wind_speed_10m := [5] }
      , daily := { time := [], temperature_2m_min := [], temperature_2m_max := []
                 , precipitation_sum := [], precipitation_probability_max := []
                 , weather_code := [] } }).humNow = CellText.dash :=
  ⟨setTodayCard_round_and_humidity_placeholder.1 UnitPref.C 0 0 _ rfl,
   (setTodayCard_round_and_humidity_placeholder.2 UnitPref.C 0 0 _ rfl).1⟩

/-- `jsIndexOf` returns the index of the first exact match. -/
theorem jsIndexOf_first (l : List String) (x : String) :
    ∀ i : ℕ, l.get? i = some x → (∀ j : ℕ, j < i → l.get? j ≠ some x) →
      jsIndexOf l x = i := by
  induction l with
  | nil => intro i h _; simp at h
  | cons a rest ih =>
    intro i h hfirst
    cases i with
    | zero =>
      simp at h
      simp [jsIndexOf, h]
    | succ j =>
      have ha : a ≠ x := by
        have := hfirst 0 (Nat.succ_pos j)
        simpa using this
      have hr : jsIndexOf rest x = j := by
        apply ih j
        · simpa using h
        · intro k hk
          have := hfirst (k + 1) (Nat.succ_lt_succ hk)
          simpa using this
      simp only [jsIndexOf, if_neg ha, hr]
      have : ¬ ((j : Int) < 0) := by omega
      simp [this]

/-- `jsIndexOf` returns `-1` when the element is absent. -/
theorem jsIndexOf_not_mem (l : List String) (x : String) (h : x ∉ l) :
    jsIndexOf l x = -1 := by
  induction l with
  | nil => rfl
  | cons a rest ih =>
    have ha : a ≠ x := fun e => h (e ▸ List.mem_cons_self a rest)
    have hr : jsIndexOf rest x = -1 := ih (fun hm => h (List.mem_cons_of_mem a hm))
    simp [jsIndexOf, ha, hr]

/-- C8: the rain-chance figure is the hourly entry at the first index whose
timestamp equals `current.time` exactly; with no exact match it falls back to
the first hourly entry; and when the hourly block cannot be read the result
is `null`, rendered as the placeholder glyph. -/
theorem getClosestHourly_exact_fallback_null :
    (∀ (h : Hourly) (cur : String) (key : Hourly → List (Option ℚ)) (i : ℕ),
        h.time.get? i = some cur → (∀ j : ℕ, j < i → h.time.get? j ≠ some cur) →
        getClosestHourly (some h) cur key = (key h).get? i)
    ∧ (∀ (h : Hourly) (cur : String) (key : Hourly → List (Option ℚ)),
        cur ∉ h.time →
        getClosestHourly (some h) cur key = (key h).get? 0)
    ∧ (∀ (cur : String) (key : Hourly → List (Option ℚ)),
        getClosestHourly none cur key = none
          ∧ rainNowCell (getClosestHourly (α := Option ℚ) none cur key).join
              = CellText.dash) := by
  refine ⟨?_, ?_, ?_⟩
  · intro h cur key i hi hfirst
    have hidx : jsIndexOf h.time cur = i := jsIndexOf_first h.time cur i hi hfirst
    simp [getClosestHourly, hidx]
  · intro h cur key hmem
    have hidx : jsIndexOf h.time cur = -1 := jsIndexOf_not_mem h.time cur hmem
    simp [getClosestHourly, hidx]
  · intro cur key
    exact ⟨rfl, rfl⟩

/-- Witness for `getClosestHourly_exact_fallback_null`: at a 3-entry hourly
block whose second timestamp matches, the entry at index 1 is returned. -/
theorem getClosestHourly_exact_fallback_null_witness :
    getClosestHourly
      (some { time := ["a", "b", "c"], temperature_2m := []
            , precipitation_probability := [some 10, some 20, some 30]
            , precipitation := [], wind_speed_10m := [] })
      "b" (fun h => h.precipitation_probability) = some (some 20) := by
  have := getClosestHourly_exact_fallback_null.1
    { time := ["a", "b", "c"], temperature_2m := []
    , precipitation_probability := [some 10, some 20, some 30]
    , precipitation := [], wind_speed_10m := [] }
    "b" (fun h => h.precipitation_probability) 1 (by decide) (by decide)
  rw [this]
  decide

/-! ## Global state, environment and requests

The script's globals (`unit`, `currentPlace`, the chart handles) and the DOM
text nodes it writes are gathered into `AppState`.  `Env` supplies what the
outside world would answer: availability of `window.Chart`, the outcome of
the next forecast / geocode fetch, and the locale formatters. Handlers
return the new state together with the list of HTTP requests they issued. -/

/-- `currentPlace` (script.js line 49): `{name, lat, lon, tz}`, with `lat`
and `lon` `null` until the first resolution. -/
structure Place where
  name : String
  lat : Option ℚ
  lon : Option ℚ
  tz : String
deriving DecidableEq

/-- Initial value of `currentPlace`. -/
def initialPlace : Place := { name := "—", lat := none, lon := none, tz := "auto" }

/-- One entry of `g.results` from the geocoding API. -/
structure GeoCandidate where
  name : String
  admin1 : Option String
  country : Option String
  latitude : ℚ
  longitude : ℚ
deriving DecidableEq

/-- One card built by `buildForecastCards` (script.js lines 244-259). -/
structure DailyCard where
  dayName : String
  dateName : String
  icon : String
  iconTitle : String
  tmin : Option ℤ
  tmax : Option ℤ
  unitSuffix : String
  rainProb : Option ℚ
  precipSum : ℚ
deriving DecidableEq

/-- The three chart widgets built by `makeCharts`, reduced to the data and
axis configuration the script feeds Chart.js. -/
structure ChartSet where
  labels : List String
  tempData : List ℚ
  rainData : List ℚ
  windData : List ℚ
  tempAxisTitle : String
  rainAxisTitle : String
  windAxisTitle : String
  rainSuggestedMax : ℚ
deriving DecidableEq

/-- HTTP requests the script can issue (`geocode`, `forecast` URL
parameters). -/
inductive Request where
  | geocodeReq (name : String) (count : ℕ) (language : String)
  | forecastReq (lat lon : ℚ) (tz : String) (temperature_unit : String)
      (windspeed_unit : String) (forecast_days : ℕ)
deriving DecidableEq

/-- The request built by `forecast(lat, lon, tz)` (script.js lines 159-172):
the temperature unit comes from the global `unit` read at call time,
wind-speed unit is fixed `"kmh"`, 7 forecast days. -/
def forecastRequest (u : UnitPref) (lat lon : ℚ) (tz : String) : Request :=
  Request.forecastReq lat lon tz
    (if u = UnitPref.F then "fahrenheit" else "celsius") "kmh" 7

/-- The request built by `geocode(query)` (script.js lines 151-156):
`count=7&language=en`. -/
def geocodeRequest (query : String) : Request := Request.geocodeReq query 7 "en"

/-- All mutable display/program state of the script. -/
structure AppState where
  unit : UnitPref
  currentPlace : Place
  placePill : String
  timePill : String
  statusPill : String
  errorBox : Option (String × String)
  loadingShown : Bool
  suggestionsShown : Bool
  lastSuggestions : List GeoCandidate
  todayCard : Option TodayCard
  forecastCards : Option (List DailyCard)
  forecastChip : Option String
  charts : Option ChartSet
  unitBtnText : String

/-- Environment: what the platform and network answer during one handler
run. `forecastResult`/`geocodeResult` are the outcome the corresponding
fetch produces (`Except.error msg` models a thrown error with message
`msg`). -/
structure Env where
  chartAvailable : Bool
  forecastResult : Except String Snapshot
  geocodeResult : Except String (List GeoCandidate)
  fmtTime : String → String
  fmtDow : String → String
  fmtDate : String → String
  fmtLocal : String → String

/-- JavaScript `String.prototype.trim`: strip leading and trailing
whitespace (executable model over the character list). -/
def jsTrim (s : String) : String :=
  String.mk (((s.data.dropWhile Char.isWhitespace).reverse.dropWhile
    Char.isWhitespace).reverse)

/-- `setLoading(isLoading)` (script.js lines 61-64). -/
def setLoading (isLoading : Bool) (st : AppState) : AppState :=
  { st with loadingShown := isLoading
          , statusPill := if isLoading then "Loading…" else "Ready" }

/-- `showError(title, subtitle)` (script.js lines 66-71). -/
def showError (title subtitle : String) (st : AppState) : AppState :=
  { st with errorBox := some (title, subtitle), statusPill := "Error" }

/-- `clearError()` (script.js lines 73-75). -/
def clearError (st : AppState) : AppState := { st with errorBox := none }

/-- `setPlace(name, lat, lon, tz)` (script.js lines 182-185): unconditional
overwrite of `currentPlace` plus the place pill. -/
def setPlace (name : String) (lat lon : ℚ) (tz : String) (st : AppState) : AppState :=
  { st with currentPlace := { name := name, lat := some lat, lon := some lon, tz := tz }
          , placePill := name }

/-- `setTimePill(nowIso)` (script.js lines 187-189). -/
def setTimePill (env : Env) (nowIso : String) (st : AppState) : AppState :=
  { st with timePill := String.append "Updated: " (env.fmtLocal nowIso) }

/-- JavaScript `a || b` on strings: `b` when `a` is empty (falsy). -/
def orDefault (s d : String) : String := if s = "" then d else s

/-- `ensureChartJs()` (script.js lines 135-144): when `window.Chart` is
absent, show the chart error and report `false`. -/
def ensureChartJs (env : Env) (st : AppState) : Bool × AppState :=
  if !env.chartAvailable then
    (false, showError "Could not load charts"
      "Chart.js is not available (CDN blocked / offline). Change CDN in index.html or use another network." st)
  else (true, st)

/-- `makeCharts(series)` (script.js lines 286-398): bail out if Chart.js is
missing (charts untouched), otherwise destroy the old widgets and build the
three new ones; `rainP` values go through `v ?? 0`, the temperature axis
title reflects the current unit. -/
def makeCharts (env : Env) (u : UnitPref) (series : ChartSeries) (st : AppState) : AppState :=
  match ensureChartJs env st with
  | (false, st') => st'
  | (true, st') =>
      let cs : ChartSet :=
        { labels := series.labels
        , tempData := series.temps
        , rainData := series.rainP.map (fun v => v.getD 0)
        , windData := series.wind
        , tempAxisTitle := if u = UnitPref.F then "°F" else "°C"
        , rainAxisTitle := "%"
        , windAxisTitle := "km/h"
        , rainSuggestedMax := 100 }
      { st' with charts := some cs }

/-- `buildForecastCards(data)` (script.js lines 228-263): one card per
`daily.time` entry; min/max rounded, `pmax[i] ?? "—"` passed through,
`(psum[i] ?? 0).toFixed(1)`, decoded icon/label. An out-of-range index in a
parallel array yields `undefined` (`none`). -/
def buildForecastCards (env : Env) (u : UnitPref) (d : Daily) : List DailyCard :=
  (List.range d.time.length).map (fun i =>
    let w := match d.weather_code.get? i with
      | some c => decodeWeatherCode c
      | none => unknownWeather
    { dayName := env.fmtDow (d.time.getD i "")
    , dateName := env.fmtDate (d.time.getD i "")
    , icon := w.i
    , iconTitle := w.t
    , tmin := (d.temperature_2m_min.get? i).map jsRound
    , tmax := (d.temperature_2m_max.get? i).map jsRound
    , unitSuffix := if u = UnitPref.F then "°F" else "°C"
    , rainProb := (d.precipitation_probability_max.get? i).join
    , precipSum := toFixed1 (((d.precipitation_sum.get? i).join).getD 0) })

/-- `loadWeatherByCoords(lat, lon, label, tz)` (script.js lines 403-424):
clear the error, show the loader, overwrite the current place, fetch the
forecast, and on success fill the time pill, today card, forecast grid and
charts; on failure show `"Could not load weather"`. The `finally` clause
always runs `setLoading(false)`. -/
def loadWeatherByCoords (env : Env) (lat lon : ℚ) (label tz : String)
    (st : AppState) : AppState × List Request :=
  let st := clearError st
  let st := setLoading true st
  let st := setPlace label lat lon tz st
  let req := forecastRequest st.unit lat lon tz
  match env.forecastResult with
  | Except.error msg =>
      let st := showError "Could not load weather"
        (orDefault msg "Check your internet and try again.") st
      (setLoading false st, [req])
  | Except.ok data =>
      let st := setTimePill env data.current.time st
      let st := { st with todayCard := some (setTodayCard st.unit lat lon data) }
      let st := { st with
        forecastCards := some (buildForecastCards env st.unit data.daily)
        , forecastChip := some (String.append "Daily • "
            (if st.unit = UnitPref.F then "°F" else "°C")) }
      let series := next24HoursSeries env.fmtTime data
      let st := makeCharts env st.unit series st
      let st := { st with statusPill := "Updated" }
      (setLoading false st, [req])

/-- Display label for a geocode candidate:
``r.name + (r.admin1 ? ", " + r.admin1 : "") + (r.country ? ", " + r.country : "")``
(script.js line 438); an empty string is falsy. -/
def geoLabel (r : GeoCandidate) : String :=
  String.append r.name (String.append
    (match r.admin1 with
     | some a => if a = "" then "" else String.append ", " a
     | none => "")
    (match r.country with
     | some c => if c = "" then "" else String.append ", " c
     | none => ""))

/-- `loadWeatherByCityName(name)` (script.js lines 426-445): geocode, show
`"No results"` on an empty result list (and return without touching place or
charts), otherwise load by the first candidate's coordinates; a thrown
geocode error shows `"City search failed"`. -/
def loadWeatherByCityName (env : Env) (name : String) (st : AppState) :
    AppState × List Request :=
  let st := clearError st
  let st := setLoading true st
  match env.geocodeResult with
  | Except.error msg =>
      (setLoading false (showError "City search failed" (orDefault msg "Try again.") st),
        [geocodeRequest name])
  | Except.ok [] =>
      (setLoading false (showError "No results"
          "Try a different city name (example: Pune, Kathmandu, Patna)." st),
        [geocodeRequest name])
  | Except.ok (r :: _) =>
      let res := loadWeatherByCoords env r.latitude r.longitude (geoLabel r) "auto" st
      (setLoading false res.1, geocodeRequest name :: res.2)

/-- `hideSuggestions()` (script.js lines 450-453). -/
def hideSuggestions (st : AppState) : AppState := { st with suggestionsShown := false }

/-- `showSuggestions(items)` (script.js lines 455-489): remember the items;
hide the list when there are none, show it otherwise. -/
def showSuggestions (items : List GeoCandidate) (st : AppState) : AppState :=
  let st := { st with lastSuggestions := items }
  if items.isEmpty then hideSuggestions st
  else { st with suggestionsShown := true }

/-- `handleAutocomplete()` (script.js lines 491-503): trim the input; fewer
than 2 characters hides the list and issues nothing; otherwise geocode and
show the results, swallowing failures by hiding the list. -/
def handleAutocomplete (env : Env) (inputValue : String) (st : AppState) :
    AppState × List Request :=
  let q := jsTrim inputValue
  if q.length < 2 then
    (hideSuggestions st, [])
  else
    match env.geocodeResult with
    | Except.ok items => (showSuggestions items st, [geocodeRequest q])
    | Except.error _ => (hideSuggestions st, [geocodeRequest q])

/-- The `searchBtn` click handler (script.js lines 512-520): empty trimmed
input shows `"Type a city name"` and stops; otherwise hide the suggestions
and run `loadWeatherByCityName`. -/
def searchBtnClick (env : Env) (inputValue : String) (st : AppState) :
    AppState × List Request :=
  let q := jsTrim inputValue
  if q = "" then
    (showError "Type a city name" "Example: Pune, Kathmandu, Patna, New York." st, [])
  else
    loadWeatherByCityName env q (hideSuggestions st)

/-- `unit = unit === "C" ? "F" : "C"` (script.js line 565). -/
def flipUnit : UnitPref → UnitPref
  | UnitPref.C => UnitPref.F
  | UnitPref.F => UnitPref.C

/-- The `unitBtn` click handler (script.js lines 564-573): flip the unit,
update the button text, and re-fetch for the current place when one is
selected. -/
def unitBtnClick (env : Env) (st : AppState) : AppState × List Request :=
  let u := flipUnit st.unit
  let st := { st with unit := u
                    , unitBtnText := if u = UnitPref.F then "°F" else "°C" }
  match st.currentPlace.lat, st.currentPlace.lon with
  | some lat, some lon =>
      loadWeatherByCoords env lat lon st.currentPlace.name st.currentPlace.tz st
  | _, _ =>
      let pill := String.append "Unit: " (if u = UnitPref.F then "°F" else "°C")
      ({ st with statusPill := pill }, [])

/-! ## Autocomplete debounce

The `input` handler (script.js lines 522-526) keeps a single timer handle:
each keystroke calls `clearTimeout` on any pending timer and schedules
`handleAutocomplete` 280 ms later.  We embed the timer semantics over a
trace of keystrokes `(time, input value after the keystroke)`, listed in
nondecreasing time order: the timer armed by a keystroke is cleared exactly
when another keystroke arrives strictly less than 280 ms later; a timer that
survives fires at `t + 280`, and `handleAutocomplete` then reads the input
value current at that moment — the text of the keystroke that armed it,
since any later keystroke is at least 280 ms away. -/

/-- The debounce delay passed to `setTimeout` (script.js line 525). -/
def DEBOUNCE_MS : ℕ := 280

/-- Input values read by the `handleAutocomplete` invocations whose timers
were never cleared, given the keystroke trace. -/
def debounceFireTexts : List (ℕ × String) → List String
  | [] => []
  | [(_, s)] => [s]
  | (t1, s1) :: (t2, s2) :: rest =>
      if t2 - t1 < DEBOUNCE_MS then debounceFireTexts ((t2, s2) :: rest)
      else s1 :: debounceFireTexts ((t2, s2) :: rest)

/-- Geocoding queries the autocomplete path issues for a keystroke trace:
each surviving timer runs `handleAutocomplete`, which trims the input and
only queries when at least 2 characters remain (script.js lines 491-498). -/
def autocompleteQueries (ks : List (ℕ × String)) : List String :=
  (debounceFireTexts ks).filterMap (fun s =>
    if (jsTrim s).length < 2 then none else some (jsTrim s))

/-- C6: two keystrokes within one debounce window issue at most one
geocoding query, and it is for the text present at the later keystroke;
concretely, `"P"` then `"Pu"` 50 ms apart issues exactly the one query
`"Pu"`. -/
theorem debounce_coalesces_within_window (t1 t2 : ℕ) (s1 s2 : String)
    (hwin : t2 - t1 < DEBOUNCE_MS) :
    (autocompleteQueries [(t1, s1), (t2, s2)]).length ≤ 1
    ∧ (∀ q ∈ autocompleteQueries [(t1, s1), (t2, s2)], q = jsTrim s2)
    ∧ autocompleteQueries [(0, "P"), (50, "Pu")] = ["Pu"] := by
  have hfires : debounceFireTexts [(t1, s1), (t2, s2)] = [s2] := by
    simp [debounceFireTexts, hwin]
  refine ⟨?_, ?_, ?_⟩
  · simp only [autocompleteQueries, hfires, List.filterMap]
    by_cases h : (jsTrim s2).length < 2 <;> simp [h]
  · intro q hq
    simp only [autocompleteQueries, hfires, List.filterMap] at hq
    by_cases h : (jsTrim s2).length < 2 <;> simp [h] at hq
    exact hq
  · decide

/-- Witness for `debounce_coalesces_within_window` at the trace
`"P"` (t=0) then `"Pu"` (t=50). -/
theorem debounce_coalesces_within_window_witness :
    (autocompleteQueries [(0, "P"), (50, "Pu")]).length ≤ 1
    ∧ autocompleteQueries [(0, "P"), (50, "Pu")] = ["Pu"] :=
  ⟨(debounce_coalesces_within_window 0 50 "P" "Pu" (by decide)).1,
   (debounce_coalesces_within_window 0 50 "P" "Pu" (by decide)).2.2⟩

/-! ## Properties of the load sequences and handlers -/

/-- `loadWeatherByCoords` never changes the unit preference. -/
theorem loadWeatherByCoords_unit (env : Env) (lat lon : ℚ) (label tz : String)
    (st : AppState) : (loadWeatherByCoords env lat lon label tz st).1.unit = st.unit := by
  cases hr : env.forecastResult with
  | error msg =>
      simp [loadWeatherByCoords, hr, clearError, setLoading, setPlace, showError]
  | ok data =>
      cases hc : env.chartAvailable <;>
        simp [loadWeatherByCoords, hr, clearError, setLoading, setPlace, setTimePill,
          makeCharts, ensureChartJs, hc, showError]

/-- `loadWeatherByCoords` sets `currentPlace` to the requested place in every
outcome. -/
theorem loadWeatherByCoords_place (env : Env) (lat lon : ℚ) (label tz : String)
    (st : AppState) : (loadWeatherByCoords env lat lon label tz st).1.currentPlace
      = { name := label, lat := some lat, lon := some lon, tz := tz } := by
  cases hr : env.forecastResult with
  | error msg =>
      simp [loadWeatherByCoords, hr, clearError, setLoading, setPlace, showError]
  | ok data =>
      cases hc : env.chartAvailable <;>
        simp [loadWeatherByCoords, hr, clearError, setLoading, setPlace, setTimePill,
          makeCharts, ensureChartJs, hc, showError]

/-- `loadWeatherByCoords` issues exactly one forecast request, carrying the
unit active at call time. -/
theorem loadWeatherByCoords_requests (env : Env) (lat lon : ℚ) (label tz : String)
    (st : AppState) : (loadWeatherByCoords env lat lon label tz st).2
      = [forecastRequest st.unit lat lon tz] := by
  cases hr : env.forecastResult with
  | error msg =>
      simp [loadWeatherByCoords, hr, clearError, setLoading, setPlace, showError]
  | ok data =>
      cases hc : env.chartAvailable <;>
        simp [loadWeatherByCoords, hr, clearError, setLoading, setPlace, setTimePill,
          makeCharts, ensureChartJs, hc, showError]

/-- C10: every coordinate-based load overwrites `currentPlace` (and the
place pill) with the newly requested place before the forecast request is
issued, so on a failed fetch the place remains the new one — the error path
does not restore the previous place.  Stated for every environment, hence in
particular for `forecastResult = Except.error msg`. -/
theorem loadByCoords_place_overwritten_even_on_failure (env : Env) (lat lon : ℚ)
    (label tz : String) (st : AppState) :
    ((loadWeatherByCoords env lat lon label tz st).1.currentPlace
        = { name := label, lat := some lat, lon := some lon, tz := tz })
    ∧ (loadWeatherByCoords env lat lon label tz st).1.placePill = label
    ∧ (loadWeatherByCoords env lat lon label tz st).2
        = [forecastRequest st.unit lat lon tz] := by
  refine ⟨loadWeatherByCoords_place env lat lon label tz st, ?_,
    loadWeatherByCoords_requests env lat lon label tz st⟩
  cases hr : env.forecastResult with
  | error msg =>
      simp [loadWeatherByCoords, hr, clearError, setLoading, setPlace, showError]
  | ok data =>
      cases hc : env.chartAvailable <;>
        simp [loadWeatherByCoords, hr, clearError, setLoading, setPlace, setTimePill,
          makeCharts, ensureChartJs, hc, showError]

/-- C4: when the charting library is unavailable and the forecast fetch
succeeds, the load sequence still populates the today card and the 7-day
forecast grid, leaves the chart region without new charts, and shows the
chart-unavailable error — and, being a total function, it does not crash. -/
theorem chartless_load_populates_summary (env : Env) (lat lon : ℚ)
    (label tz : String) (st : AppState) (data : Snapshot)
    (hchart : env.chartAvailable = false)
    (hok : env.forecastResult = Except.ok data) :
    ((loadWeatherByCoords env lat lon label tz st).1.todayCard
        = some (setTodayCard st.unit lat lon data))
    ∧ ((loadWeatherByCoords env lat lon label tz st).1.forecastCards
        = some (buildForecastCards env st.unit data.daily))
    ∧ (loadWeatherByCoords env lat lon label tz st).1.charts = st.charts
    ∧ (loadWeatherByCoords env lat lon label tz st).1.errorBox
        = some ("Could not load charts",
            "Chart.js is not available (CDN blocked / offline). Change CDN in index.html or use another network.") := by
  refine ⟨?_, ?_, ?_, ?_⟩ <;>
    simp [loadWeatherByCoords, hok, clearError, setLoading, setPlace, setTimePill,
      makeCharts, ensureChartJs, hchart, showError]

/-- C3: a search whose geocoding returns zero results shows the
`"No results"` state — a message distinct from the transport-failure message
`"City search failed"` — performs no chart update, and leaves the current
place (and today card) unchanged; a thrown geocode error shows
`"City search failed"` instead. -/
theorem geocode_no_results_vs_failure (env : Env) (q : String) (st : AppState) :
    (env.geocodeResult = Except.ok [] →
        ((loadWeatherByCityName env q st).1.errorBox
            = some ("No results",
                "Try a different city name (example: Pune, Kathmandu, Patna).")
          ∧ (loadWeatherByCityName env q st).1.charts = st.charts
          ∧ (loadWeatherByCityName env q st).1.currentPlace = st.currentPlace
          ∧ (loadWeatherByCityName env q st).1.todayCard = st.todayCard))
    ∧ (∀ msg : String, msg ≠ "" → env.geocodeResult = Except.error msg →
        (loadWeatherByCityName env q st).1.errorBox
          = some ("City search failed", msg))
    ∧ ("No results" : String) ≠ "City search failed" := by
  refine ⟨?_, ?_, by decide⟩
  · intro h
    refine ⟨?_, ?_, ?_, ?_⟩ <;>
      simp [loadWeatherByCityName, h, clearError, setLoading, showError]
  · intro msg hmsg h
    simp [loadWeatherByCityName, h, clearError, setLoading, showError, orDefault, hmsg]

/-- C5: input that is empty after trimming issues no request from the search
submission; autocomplete input shorter than 2 characters after trimming
(which subsumes empty and whitespace-only input) issues no request, goes
idle, and hides the suggestion list. -/
theorem blank_input_issues_no_request :
    (∀ (env : Env) (input : String) (st : AppState), jsTrim input = "" →
        (searchBtnClick env input st).2 = [])
    ∧ (∀ (env : Env) (input : String) (st : AppState), (jsTrim input).length < 2 →
        (handleAutocomplete env input st).2 = []
          ∧ (handleAutocomplete env input st).1.suggestionsShown = false)
    ∧ (∀ (env : Env) (input : String) (st : AppState), jsTrim input = "" →
        (handleAutocomplete env input st).2 = []) := by
  refine ⟨?_, ?_, ?_⟩
  · intro env input st h
    simp [searchBtnClick, h]
  · intro env input st h
    constructor <;> simp [handleAutocomplete, h, hideSuggestions]
  · intro env input st h
    simp [handleAutocomplete, h, hideSuggestions]

/-- `flipUnit` is an involution. -/
theorem flipUnit_flipUnit (u : UnitPref) : flipUnit (flipUnit u) = u := by
  cases u <;> rfl

/-- When a place is selected, a unit-button click flips the unit, keeps the
place, and issues exactly one forecast request carrying the just-flipped
unit. -/
theorem unitBtnClick_selected (env : Env) (st : AppState) (lat lon : ℚ)
    (hlat : st.currentPlace.lat = some lat)
    (hlon : st.currentPlace.lon = some lon) :
    (unitBtnClick env st).1.unit = flipUnit st.unit
    ∧ (unitBtnClick env st).1.currentPlace
        = { name := st.currentPlace.name, lat := some lat, lon := some lon
          , tz := st.currentPlace.tz }
    ∧ (unitBtnClick env st).2
        = [forecastRequest (flipUnit st.unit) lat lon st.currentPlace.tz] := by
  have hred : unitBtnClick env st
      = loadWeatherByCoords env lat lon st.currentPlace.name st.currentPlace.tz
          { st with unit := flipUnit st.unit
                  , unitBtnText := if flipUnit st.unit = UnitPref.F then "°F" else "°C" } := by
    simp [unitBtnClick, hlat, hlon]
  rw [hred]
  exact ⟨loadWeatherByCoords_unit _ _ _ _ _ _,
    loadWeatherByCoords_place _ _ _ _ _ _,
    loadWeatherByCoords_requests _ _ _ _ _ _⟩

/-- C9: with a place selected, toggling the unit twice returns the
preference to its original value, and each of the two clicks issues one
re-fetch carrying the unit active at that fetch: first the flipped unit,
then the original one. -/
theorem unitToggle_roundtrip (env1 env2 : Env) (st : AppState) (lat lon : ℚ)
    (hlat : st.currentPlace.lat = some lat)
    (hlon : st.currentPlace.lon = some lon) :
    ((unitBtnClick env2 (unitBtnClick env1 st).1).1.unit = st.unit)
    ∧ (unitBtnClick env1 st).2
        = [forecastRequest (flipUnit st.unit) lat lon st.currentPlace.tz]
    ∧ (unitBtnClick env2 (unitBtnClick env1 st).1).2
        = [forecastRequest st.unit lat lon st.currentPlace.tz] := by
  obtain ⟨h1u, h1p, h1r⟩ := unitBtnClick_selected env1 st lat lon hlat hlon
  have hlat2 : (unitBtnClick env1 st).1.currentPlace.lat = some lat := by
    rw [h1p]
  have hlon2 : (unitBtnClick env1 st).1.currentPlace.lon = some lon := by
    rw [h1p]
  obtain ⟨h2u, h2p, h2r⟩ :=
    unitBtnClick_selected env2 (unitBtnClick env1 st).1 lat lon hlat2 hlon2
  refine ⟨?_, h1r, ?_⟩
  · rw [h2u, h1u, flipUnit_flipUnit]
  · rw [h2r, h1u, flipUnit_flipUnit, h1p]

/-! ## Concrete fixtures for witnesses -/

/-- Identity string formatter, standing in for the locale formatters in
concrete runs. -/
def idFmt : String → String := fun s => s

/-- A small well-formed forecast snapshot. -/
def sampleSnapshot : Snapshot :=
  { current := { time := "2026-01-01T00:00", temperature_2m := 10
               , apparent_temperature := 9, relative_humidity_2m := some 50
               , precipitation := some 0, weather_code := 0, wind_speed_10m := 12 }
  , hourly := { time := ["2026-01-01T00:00", "2026-01-01T01:00"]
              , temperature_2m := [10, 11]
              , precipitation_probability := [some 20, some 30]
              , precipitation := [0, 0]
              , wind_speed_10m := [12, 13] }
  , daily := { time := ["2026-01-01"], temperature_2m_min := [5]
             , temperature_2m_max := [15], precipitation_sum := [some 1]
             , precipitation_probability_max := [some 40], weather_code := [1] } }

/-- A concrete app state with no place selected yet. -/
def sampleState : AppState :=
  { unit := UnitPref.C, currentPlace := initialPlace, placePill := "—"
  , timePill := "", statusPill := "Ready", errorBox := none
  , loadingShown := false, suggestionsShown := false, lastSuggestions := []
  , todayCard := none, forecastCards := none, forecastChip := none
  , charts := none, unitBtnText := "°C" }

/-- A concrete app state with the place `"Pune"` selected. -/
def samplePlaceState : AppState :=
  { sampleState with currentPlace :=
      { name := "Pune", lat := some 18, lon := some 73, tz := "auto" } }

/-- Environment in which geocoding returns zero results. -/
def sampleEnvNoResults : Env :=
  { chartAvailable := true, forecastResult := Except.error ""
  , geocodeResult := Except.ok [], fmtTime := idFmt, fmtDow := idFmt
  , fmtDate := idFmt, fmtLocal := idFmt }

/-- Environment in which the forecast succeeds but Chart.js is absent. -/
def sampleEnvNoChart : Env :=
  { chartAvailable := false, forecastResult := Except.ok sampleSnapshot
  , geocodeResult := Except.ok [], fmtTime := idFmt, fmtDow := idFmt
  , fmtDate := idFmt, fmtLocal := idFmt }

/-- Witness for `geocode_no_results_vs_failure`: the unmatched query
`"zzqxnotaplace"` shows the `"No results"` state and leaves the current
place and charts untouched. -/
theorem geocode_no_results_vs_failure_witness :
    ((loadWeatherByCityName sampleEnvNoResults "zzqxnotaplace" sampleState).1.errorBox
        = some ("No results",
            "Try a different city name (example: Pune, Kathmandu, Patna).")
      ∧ (loadWeatherByCityName sampleEnvNoResults "zzqxnotaplace" sampleState).1.charts
        = sampleState.charts
      ∧ (loadWeatherByCityName sampleEnvNoResults "zzqxnotaplace" sampleState).1.currentPlace
        = sampleState.currentPlace
      ∧ (loadWeatherByCityName sampleEnvNoResults "zzqxnotaplace" sampleState).1.todayCard
        = sampleState.todayCard) :=
  (geocode_no_results_vs_failure sampleEnvNoResults "zzqxnotaplace" sampleState).1 rfl

/-- Witness for `chartless_load_populates_summary` at concrete coordinates
with `sampleEnvNoChart`. -/
theorem chartless_load_populates_summary_witness :
    ((loadWeatherByCoords sampleEnvNoChart 1 2 "X" "auto" sampleState).1.todayCard
        = some (setTodayCard sampleState.unit 1 2 sampleSnapshot))
    ∧ ((loadWeatherByCoords sampleEnvNoChart 1 2 "X" "auto" sampleState).1.forecastCards
        = some (buildForecastCards sampleEnvNoChart sampleState.unit sampleSnapshot.daily))
    ∧ (loadWeatherByCoords sampleEnvNoChart 1 2 "X" "auto" sampleState).1.charts
        = sampleState.charts
    ∧ (loadWeatherByCoords sampleEnvNoChart 1 2 "X" "auto" sampleState).1.errorBox
        = some ("Could not load charts",
            "Chart.js is not available (CDN blocked / offline). Change CDN in index.html or use another network.") :=
  chartless_load_populates_summary sampleEnvNoChart 1 2 "X" "auto" sampleState
    sampleSnapshot rfl rfl

/-- Witness for `blank_input_issues_no_request`: a whitespace-only search
and autocomplete input, and a 1-character autocomplete input, issue no
request. -/
theorem blank_input_issues_no_request_witness :
    (searchBtnClick sampleEnvNoResults "   " sampleState).2 = []
    ∧ (handleAutocomplete sampleEnvNoResults "   " sampleState).2 = []
    ∧ (handleAutocomplete sampleEnvNoResults " a " sampleState).2 = [] :=
  ⟨blank_input_issues_no_request.1 sampleEnvNoResults "   " sampleState (by decide),
   blank_input_issues_no_request.2.2 sampleEnvNoResults "   " sampleState (by decide),
   (blank_input_issues_no_request.2.1 sampleEnvNoResults " a " sampleState (by decide)).1⟩

/-- Witness for `unitToggle_roundtrip` at the selected place `"Pune"`. -/
theorem unitToggle_roundtrip_witness :
    ((unitBtnClick sampleEnvNoChart (unitBtnClick sampleEnvNoResults samplePlaceState).1).1.unit
        = samplePlaceState.unit)
    ∧ (unitBtnClick sampleEnvNoResults samplePlaceState).2
        = [forecastRequest (flipUnit samplePlaceState.unit) 18 73
            samplePlaceState.currentPlace.tz]
    ∧ (unitBtnClick sampleEnvNoChart (unitBtnClick sampleEnvNoResults samplePlaceState).1).2
        = [forecastRequest samplePlaceState.unit 18 73
            samplePlaceState.currentPlace.tz] :=
  unitToggle_roundtrip sampleEnvNoResults sampleEnvNoChart samplePlaceState 18 73 rfl rfl

end WeatherViz
